import Mathlib

/-!
Verification of `email_autoresponder.py` (PhoBoCo intelligent email
autoresponder).  The script scans configured Gmail labels for unread
messages, generates a reply for each with the OpenAI chat API, and saves
the reply as a Gmail draft.

The shallow embedding below models the script's pure data flow and its
interaction with the two remote services.  A `World` packages the process
environment (the `OPENAI_API_KEY` variable) and the behaviour of the two
services as oracles: each service call either returns a value or raises an
exception.  Exceptions are modelled by `PyError`: `httpError` stands for
`googleapiclient.errors.HttpError` (raised by the Gmail `execute()` calls),
`runtimeError` for the `RuntimeError` raised on a missing API key, and
`openaiError` for the exception classes raised by `openai.ChatCompletion.create`
(which are NOT subclasses of `HttpError`).  Running the orchestrator
produces the ordered trace of service calls made, together with an
`Outcome`: normal completion, or termination by an uncaught exception.
-/

namespace PhoBoCo

/-- Exceptions that can arise while processing.  `httpError` models
`googleapiclient.errors.HttpError`; `runtimeError` models Python's
`RuntimeError`; `openaiError` models the error classes of the `openai`
package.  Only `httpError` is caught by the per-label handler in
`process_unread_messages` (source line 207: `except HttpError as error`). -/
inductive PyError where
  | httpError : String → PyError
  | runtimeError : String → PyError
  | openaiError : String → PyError
deriving DecidableEq, Repr

/-- The `email.message.EmailMessage` object built by `create_message`
(source lines 152-157): the values assigned to the To, From and Subject
headers and the body passed to `set_content`. -/
structure EmailMsg where
  toAddr : String
  fromAddr : String
  subject : String
  body : String
deriving DecidableEq, Repr

/-- One remote service call made by the script, in order of occurrence:
`listCall label` is `users().messages().list(...labelIds=[label], q="is:unread")`,
`getCall id` is `users().messages().get(...id=id, format="metadata",...)`,
`genCall prompt` is `openai.ChatCompletion.create(...)` with the given
prompt, and `draftCreate m` is `users().drafts().create(...)` saving the
draft built from `m`. -/
inductive Call where
  | listCall : String → Call
  | getCall : String → Call
  | genCall : String → Call
  | draftCreate : EmailMsg → Call
deriving DecidableEq, Repr

/-- The metadata returned by a successful `get` call: the list of
`(name, value)` header pairs found under `full_msg["payload"]["headers"]`
(possibly absent entries are an empty list) and the optional
`full_msg["snippet"]` field. -/
structure MsgMeta where
  headers : List (String × String)
  snippet : Option String
deriving DecidableEq, Repr

/-- The environment and the two remote services, as oracles.  `apiKey` is
`os.environ.get("OPENAI_API_KEY")`; each service function returns either a
normal result or the message of the exception the call raises. -/
structure World where
  apiKey : Option String
  listResult : String → Except String (List String)
  getResult : String → Except String MsgMeta
  draftResult : EmailMsg → Except String Unit
  genResult : String → Except String String

/-- Outcome of a run of the orchestrator: normal return, or termination by
an exception that no handler caught. -/
inductive Outcome where
  | ok : Outcome
  | uncaught : PyError → Outcome
deriving DecidableEq, Repr

/-- Python truthiness test `if not openai.api_key` (source line 106):
`os.environ.get` yields `None` when the variable is absent, and the empty
string is also falsy. -/
def keyMissing : Option String → Bool
  | none => true
  | some s => s == ""

/-- The message of the `RuntimeError` raised on a missing key
(source lines 107-109). -/
def openaiMissingMsg : String :=
  "OPENAI_API_KEY environment variable not set. Please set it before running."

/-- Lookup in the dict built by
`{h["name"]: h["value"] for h in full_msg["payload"].get("headers", [])}`
(source line 198): a later pair with the same name overwrites an earlier
one, so the lookup finds the last matching pair. -/
def dictGet (pairs : List (String × String)) (k : String) : Option String :=
  (pairs.reverse.find? (fun p => p.1 == k)).map (fun p => p.2)

/-- `headers.get(k, "")` (source lines 199-200): a missing header defaults
to the empty string. -/
def headerOf (m : MsgMeta) (k : String) : String :=
  (dictGet m.headers k).getD ""

/-- The prompt built at source lines 111-120.  Python's adjacent literal
fragments and f-string interpolations are merged into the literal chunks
between the three interpolated values. -/
def mkPrompt (sender subject snippet : String) : String :=
  "You are an assistant drafting polite, professional email replies for a photo booth rental company named PhoBoCo. Use the email below as context.\nFrom: "
  ++ sender
  ++ "\nSubject: "
  ++ subject
  ++ "\nMessage snippet:\n"
  ++ snippet
  ++ "\n\nCraft a concise, friendly response addressing the sender\x27s points and acknowledging their inquiry. Sign off as \x27PhoBoCo Team\x27."

/-- Python's `str.strip()` with no argument: remove leading and trailing
whitespace characters. -/
def pyStrip (s : String) : String :=
  String.mk (((s.data.dropWhile Char.isWhitespace).reverse.dropWhile
    Char.isWhitespace).reverse)

/-- `generate_reply` (source lines 86-130): check the API key, build the
prompt, make exactly one chat-completion call, and return the generated
text stripped of leading and trailing whitespace (`.strip()`, modelled by
`pyStrip`).  The first component is the trace of service calls made. -/
def generate_reply (w : World) (sender subject snippet : String) :
    List Call × Except PyError String :=
  if keyMissing w.apiKey then
    ([], .error (.runtimeError openaiMissingMsg))
  else
    let prompt := mkPrompt sender subject snippet
    match w.genResult prompt with
    | .error e => ([.genCall prompt], .error (.openaiError e))
    | .ok txt => ([.genCall prompt], .ok (pyStrip txt))

/-- `create_message` (source lines 133-157): build the `EmailMessage` with
the given To and From values, the subject with `"Re: "` unconditionally
prepended (source line 156), and the body. -/
def create_message (from_email to_email subject message_text : String) : EmailMsg :=
  { toAddr := to_email
    fromAddr := from_email
    subject := "Re: " ++ subject
    body := message_text }

/-- The body of the label loop for one message (source lines 184-206):
fetch the metadata, default missing Subject/From headers and snippet to
the empty string, generate the reply, build the draft and save it.  The
result is the trace of calls made and either the draft saved or the
exception raised. -/
def processMessage (w : World) (msgId : String) : List Call × Except PyError EmailMsg :=
  match w.getResult msgId with
  | .error e => ([.getCall msgId], .error (.httpError e))
  | .ok meta =>
    let subject := headerOf meta "Subject"
    let sender := headerOf meta "From"
    let snippet := meta.snippet.getD ""
    match generate_reply w sender subject snippet with
    | (calls, .error e) => (.getCall msgId :: calls, .error e)
    | (calls, .ok reply) =>
      let draft := create_message "me" sender subject reply
      match w.draftResult draft with
      | .error e => (.getCall msgId :: calls ++ [.draftCreate draft], .error (.httpError e))
      | .ok _ => (.getCall msgId :: calls ++ [.draftCreate draft], .ok draft)

/-- The inner `for message in messages` loop (source line 184): an
exception raised for one message aborts the remainder of the loop and
propagates to the per-label handler. -/
def processMsgList (w : World) : List String → List Call × Except PyError Unit
  | [] => ([], .ok ())
  | msgId :: rest =>
    match processMessage w msgId with
    | (calls, .error e) => (calls, .error e)
    | (calls, .ok _) =>
      let (calls2, res) := processMsgList w rest
      (calls ++ calls2, res)

/-- The body of the `try` block for one label (source lines 176-206): list
the unread messages of the label (`response.get("messages", [])` defaults
to the empty list) and process each in order. -/
def processLabel (w : World) (label : String) : List Call × Except PyError Unit :=
  match w.listResult label with
  | .error e => ([.listCall label], .error (.httpError e))
  | .ok ids =>
    let (calls, res) := processMsgList w ids
    (.listCall label :: calls, res)

/-- Whether an exception is matched by `except HttpError` (source line 207). -/
def isHttpError : PyError → Bool
  | .httpError _ => true
  | _ => false

/-- `process_unread_messages` (source lines 162-209) over a list of labels:
for each label run the `try` body; an `HttpError` is caught, printed and
the loop continues with the next label; any other exception propagates and
terminates the run. -/
def process_unread_messages (w : World) : List String → List Call × Outcome
  | [] => ([], .ok)
  | label :: rest =>
    match processLabel w label with
    | (calls, .ok _) =>
      let (calls2, out) := process_unread_messages w rest
      (calls ++ calls2, out)
    | (calls, .error e) =>
      if isHttpError e then
        let (calls2, out) := process_unread_messages w rest
        (calls ++ calls2, out)
      else
        (calls, .uncaught e)

/-- `LABELS_TO_PROCESS` (source lines 49-54). -/
def LABELS_TO_PROCESS : List String :=
  ["Leads_New", "Clients_OpenQuestions", "Finance_Bookings", "Event_Changes"]

/-- `seg` occurs verbatim inside `hay`. -/
def containsSeg (hay seg : String) : Prop :=
  ∃ pre post : String, hay = pre ++ seg ++ post

/-!
The serialization performed at source line 158,
`base64.urlsafe_b64encode(msg.as_bytes()).decode()`, is modelled below.

`msg.as_bytes()` (with the `email.policy.default` policy used by
`email.message.EmailMessage`) serializes the message as the three
assigned headers, the `Content-Type`, `Content-Transfer-Encoding` and
`MIME-Version` headers added by `set_content`, a blank line, and the body
with a final newline appended when the body does not already end in one.
This plain serialization, with `Content-Transfer-Encoding: 7bit`, is
what the library produces when every header value and the body are
ASCII, header values contain no newline or carriage return (the library
rejects those with a `ValueError`), the body contains no carriage
return (the library rewrites `\r` and `\r\n` to `\n`), each header line
stays within the 78-character limit of the folding policy, and every
body line is at most 78 characters long — `set_content` switches the
transfer encoding to quoted-printable (with a re-encoded, soft-wrapped
body) as soon as some body line exceeds `policy.max_line_length` (78).
The round-trip theorems below are stated under exactly these
hypotheses.
-/

/-- The trailing-newline normalization applied to the body by
`set_content`/`as_bytes`: a body that does not end in `"\n"` gets one
appended (the empty body becomes `"\n"`). -/
def pyBody (body : String) : String :=
  if body.data.getLast? = some '\n' then body else body ++ "\n"

/-- The headers contributed by `set_content` for an ASCII plain-text body,
followed by the blank line separating headers from body. -/
def fixedMimeTail : String :=
  "Content-Type: text/plain; charset=\"utf-8\"\nContent-Transfer-Encoding: 7bit\nMIME-Version: 1.0\n\n"

/-- `msg.as_bytes()` for the message built by `create_message`, in the
ASCII/no-folding regime described above. -/
def serializeMime (m : EmailMsg) : String :=
  "To: " ++ m.toAddr ++ "\nFrom: " ++ m.fromAddr ++ "\nSubject: " ++ m.subject ++ "\n"
  ++ fixedMimeTail ++ pyBody m.body

/-- Sample metadata for a fetched message. -/
def sampleMeta : MsgMeta :=
  { headers := [("Subject", "Booking question"), ("From", "alice@example.com")]
    snippet := some "Hi, is the booth free on Saturday?" }

/-- A world where the key is set and every service call succeeds, each
label listing the single unread message `"m1"`. -/
def okWorld : World :=
  { apiKey := some "sk-test"
    listResult := fun _ => .ok ["m1"]
    getResult := fun _ => .ok sampleMeta
    draftResult := fun _ => .ok ()
    genResult := fun _ => .ok "Thanks for reaching out!" }

/-- The draft produced for `sampleMeta` in `okWorld`. -/
def okDraft : EmailMsg :=
  create_message "me" "alice@example.com" "Booking question"
    (pyStrip "Thanks for reaching out!")

/-- `okWorld` with the `OPENAI_API_KEY` variable absent. -/
def noKeyWorld : World :=
  { okWorld with apiKey := none }

/-- `okWorld` with a failing generation service. -/
def genFailWorld : World :=
  { okWorld with genResult := fun _ => .error "rate limited" }

/-- `okWorld` where listing the label `"Leads_New"` raises an `HttpError`. -/
def listFailWorld : World :=
  { okWorld with
      listResult := fun l => if l = "Leads_New" then .error "HTTP 500" else .ok [] }

/-- `okWorld` where every label has no unread messages. -/
def emptyWorld : World :=
  { okWorld with listResult := fun _ => .ok [] }

/-- `okWorld` where the fetched metadata carries no Subject or From
header, and the generated text has surrounding whitespace. -/
def noHdrWorld : World :=
  { okWorld with
      getResult := fun _ => .ok { headers := [], snippet := some "a snippet" }
      genResult := fun _ => .ok "  A reply.  " }

/-!
Helper lemmas: the base64 and MIME layers invert the encoding, and the
shape of the trace produced by the orchestrator.
-/

theorem generate_reply_fst (w : World) (s t u : String) :
    (generate_reply w s t u).1 = [] ∨
      (generate_reply w s t u).1 = [Call.genCall (mkPrompt s t u)] := by
  unfold generate_reply
  split
  · left; rfl
  · rcases hg : w.genResult (mkPrompt s t u) with e | t' <;> simp [hg]

theorem generate_reply_keyMissing {w : World} (hk : keyMissing w.apiKey = true)
    (s t u : String) :
    generate_reply w s t u = ([], .error (.runtimeError openaiMissingMsg)) := by
  unfold generate_reply
  rw [if_pos hk]

theorem generate_reply_genError {w : World} {e : String} (hk : keyMissing w.apiKey = false)
    (s t u : String) (hg : w.genResult (mkPrompt s t u) = .error e) :
    generate_reply w s t u = ([Call.genCall (mkPrompt s t u)], .error (.openaiError e)) := by
  unfold generate_reply
  rw [if_neg (by simp [hk])]
  simp only [hg]

theorem generate_reply_genOk {w : World} {t' : String} (hk : keyMissing w.apiKey = false)
    (s t u : String) (hg : w.genResult (mkPrompt s t u) = .ok t') :
    generate_reply w s t u = ([Call.genCall (mkPrompt s t u)], .ok (pyStrip t')) := by
  unfold generate_reply
  rw [if_neg (by simp [hk])]
  simp only [hg]

theorem run_cons_listError {w : World} {l : String} {rest : List String} {e : String}
    (h : w.listResult l = .error e) :
    process_unread_messages w (l :: rest) =
      (Call.listCall l :: (process_unread_messages w rest).1,
       (process_unread_messages w rest).2) := by
  cases hr : process_unread_messages w rest with
  | mk tr out => simp [process_unread_messages, processLabel, h, isHttpError, hr]

theorem run_cons_listEmpty {w : World} {l : String} {rest : List String}
    (h : w.listResult l = .ok []) :
    process_unread_messages w (l :: rest) =
      (Call.listCall l :: (process_unread_messages w rest).1,
       (process_unread_messages w rest).2) := by
  cases hr : process_unread_messages w rest with
  | mk tr out => simp [process_unread_messages, processLabel, processMsgList, h, hr]

theorem processMessage_genError {w : World} {msgId : String} {meta : MsgMeta} {e : String}
    (hk : keyMissing w.apiKey = false) (hget : w.getResult msgId = .ok meta)
    (hg : w.genResult (mkPrompt (headerOf meta "From") (headerOf meta "Subject")
      (meta.snippet.getD "")) = .error e) :
    processMessage w msgId =
      ([Call.getCall msgId,
        Call.genCall (mkPrompt (headerOf meta "From") (headerOf meta "Subject")
          (meta.snippet.getD ""))],
       .error (.openaiError e)) := by
  unfold processMessage
  rw [hget]
  simp only [generate_reply_genError hk _ _ _ hg]

theorem processMessage_keyMissing {w : World} {msgId : String} {meta : MsgMeta}
    (hk : keyMissing w.apiKey = true) (hget : w.getResult msgId = .ok meta) :
    processMessage w msgId = ([Call.getCall msgId], .error (.runtimeError openaiMissingMsg)) := by
  unfold processMessage
  rw [hget]
  simp only [generate_reply_keyMissing hk]

theorem processMessage_ok {w : World} {msgId : String} {meta : MsgMeta} {t' : String}
    (hk : keyMissing w.apiKey = false) (hget : w.getResult msgId = .ok meta)
    (hg : w.genResult (mkPrompt (headerOf meta "From") (headerOf meta "Subject")
      (meta.snippet.getD "")) = .ok t')
    (hd : w.draftResult (create_message "me" (headerOf meta "From")
      (headerOf meta "Subject") (pyStrip t')) = .ok ()) :
    processMessage w msgId =
      ([Call.getCall msgId,
        Call.genCall (mkPrompt (headerOf meta "From") (headerOf meta "Subject")
          (meta.snippet.getD "")),
        Call.draftCreate (create_message "me" (headerOf meta "From")
          (headerOf meta "Subject") (pyStrip t'))],
       .ok (create_message "me" (headerOf meta "From") (headerOf meta "Subject") (pyStrip t'))) := by
  unfold processMessage
  rw [hget]
  simp only [generate_reply_genOk hk _ _ _ hg]
  rw [hd]
  simp

theorem run_cons_genError {w : World} {l : String} {rest : List String}
    {msgId : String} {ids : List String} {meta : MsgMeta} {e : String}
    (hk : keyMissing w.apiKey = false)
    (hl : w.listResult l = .ok (msgId :: ids))
    (hget : w.getResult msgId = .ok meta)
    (hg : w.genResult (mkPrompt (headerOf meta "From") (headerOf meta "Subject")
      (meta.snippet.getD "")) = .error e) :
    process_unread_messages w (l :: rest) =
      ([Call.listCall l, Call.getCall msgId,
        Call.genCall (mkPrompt (headerOf meta "From") (headerOf meta "Subject")
          (meta.snippet.getD ""))],
       .uncaught (.openaiError e)) := by
  simp [process_unread_messages, processLabel, processMsgList, hl,
    processMessage_genError hk hget hg, isHttpError]

theorem run_cons_keyMissing {w : World} {l : String} {rest : List String}
    {msgId : String} {ids : List String} {meta : MsgMeta}
    (hk : keyMissing w.apiKey = true)
    (hl : w.listResult l = .ok (msgId :: ids))
    (hget : w.getResult msgId = .ok meta) :
    process_unread_messages w (l :: rest) =
      ([Call.listCall l, Call.getCall msgId], .uncaught (.runtimeError openaiMissingMsg)) := by
  simp [process_unread_messages, processLabel, processMsgList, hl,
    processMessage_keyMissing hk hget, isHttpError]

theorem processMessage_getError {w : World} {msgId e : String}
    (h : w.getResult msgId = .error e) :
    processMessage w msgId = ([Call.getCall msgId], .error (.httpError e)) := by
  simp [processMessage, h]

theorem processMessage_genFail {w : World} {msgId : String} {meta : MsgMeta}
    {calls : List Call} {e : PyError}
    (hget : w.getResult msgId = .ok meta)
    (hgen : generate_reply w (headerOf meta "From") (headerOf meta "Subject")
      (meta.snippet.getD "") = (calls, .error e)) :
    processMessage w msgId = (Call.getCall msgId :: calls, .error e) := by
  simp [processMessage, hget, hgen]

theorem processMessage_draftError {w : World} {msgId : String} {meta : MsgMeta}
    {calls : List Call} {reply e : String}
    (hget : w.getResult msgId = .ok meta)
    (hgen : generate_reply w (headerOf meta "From") (headerOf meta "Subject")
      (meta.snippet.getD "") = (calls, .ok reply))
    (hdr : w.draftResult (create_message "me" (headerOf meta "From")
      (headerOf meta "Subject") reply) = .error e) :
    processMessage w msgId =
      (Call.getCall msgId :: calls ++ [Call.draftCreate (create_message "me"
        (headerOf meta "From") (headerOf meta "Subject") reply)],
       .error (.httpError e)) := by
  simp [processMessage, hget, hgen, hdr]

theorem processMessage_draftOk {w : World} {msgId : String} {meta : MsgMeta}
    {calls : List Call} {reply : String} {u : Unit}
    (hget : w.getResult msgId = .ok meta)
    (hgen : generate_reply w (headerOf meta "From") (headerOf meta "Subject")
      (meta.snippet.getD "") = (calls, .ok reply))
    (hdr : w.draftResult (create_message "me" (headerOf meta "From")
      (headerOf meta "Subject") reply) = .ok u) :
    processMessage w msgId =
      (Call.getCall msgId :: calls ++ [Call.draftCreate (create_message "me"
        (headerOf meta "From") (headerOf meta "Subject") reply)],
       .ok (create_message "me" (headerOf meta "From") (headerOf meta "Subject") reply)) := by
  simp [processMessage, hget, hgen, hdr]

theorem processMsgList_cons_error {w : World} {msgId : String} {rest : List String}
    {calls : List Call} {e : PyError}
    (h : processMessage w msgId = (calls, .error e)) :
    processMsgList w (msgId :: rest) = (calls, .error e) := by
  simp [processMsgList, h]

theorem processMsgList_cons_ok {w : World} {msgId : String} {rest : List String}
    {calls : List Call} {d : EmailMsg}
    (h : processMessage w msgId = (calls, .ok d)) :
    processMsgList w (msgId :: rest) =
      (calls ++ (processMsgList w rest).1, (processMsgList w rest).2) := by
  cases hr : processMsgList w rest with
  | mk a b => simp [processMsgList, h, hr]

theorem processLabel_listError {w : World} {label e : String}
    (h : w.listResult label = .error e) :
    processLabel w label = ([Call.listCall label], .error (.httpError e)) := by
  simp [processLabel, h]

theorem processLabel_listOk {w : World} {label : String} {ids : List String}
    (h : w.listResult label = .ok ids) :
    processLabel w label =
      (Call.listCall label :: (processMsgList w ids).1, (processMsgList w ids).2) := by
  cases hr : processMsgList w ids with
  | mk a b => simp [processLabel, h, hr]

theorem run_cons_labelOk {w : World} {label : String} {rest : List String}
    {calls : List Call} {u : Unit}
    (h : processLabel w label = (calls, .ok u)) :
    process_unread_messages w (label :: rest) =
      (calls ++ (process_unread_messages w rest).1, (process_unread_messages w rest).2) := by
  cases hr : process_unread_messages w rest with
  | mk a b => simp [process_unread_messages, h, hr]

theorem run_cons_labelHttp {w : World} {label : String} {rest : List String}
    {calls : List Call} {e : PyError}
    (h : processLabel w label = (calls, .error e)) (hh : isHttpError e = true) :
    process_unread_messages w (label :: rest) =
      (calls ++ (process_unread_messages w rest).1, (process_unread_messages w rest).2) := by
  cases hr : process_unread_messages w rest with
  | mk a b => simp [process_unread_messages, h, hh, hr]

theorem run_cons_labelFatal {w : World} {label : String} {rest : List String}
    {calls : List Call} {e : PyError}
    (h : processLabel w label = (calls, .error e)) (hh : isHttpError e = false) :
    process_unread_messages w (label :: rest) = (calls, .uncaught e) := by
  simp [process_unread_messages, h, hh]

theorem draft_mem_processMessage {w : World} {msgId : String} {d : EmailMsg}
    (h : Call.draftCreate d ∈ (processMessage w msgId).1) :
    ∃ meta reply, w.getResult msgId = .ok meta ∧
      d = create_message "me" (headerOf meta "From") (headerOf meta "Subject") reply := by
  rcases hg : w.getResult msgId with e | meta
  · rw [processMessage_getError hg] at h
    simp at h
  · rcases hgen : generate_reply w (headerOf meta "From") (headerOf meta "Subject")
        (meta.snippet.getD "") with ⟨calls, res⟩
    have hnod : Call.draftCreate d ∉ calls := by
      have hfst := generate_reply_fst w (headerOf meta "From") (headerOf meta "Subject")
        (meta.snippet.getD "")
      rw [hgen] at hfst
      have hfst2 : calls = [] ∨ calls = [Call.genCall (mkPrompt (headerOf meta "From")
          (headerOf meta "Subject") (meta.snippet.getD ""))] := hfst
      rcases hfst2 with rfl | rfl <;> simp
    rcases res with e | reply
    · rw [processMessage_genFail hg hgen] at h
      rcases List.mem_cons.mp h with he | he
      · simp at he
      · exact absurd he hnod
    · rcases hdr : w.draftResult (create_message "me" (headerOf meta "From")
          (headerOf meta "Subject") reply) with e | u
      · rw [processMessage_draftError hg hgen hdr] at h
        rcases List.mem_cons.mp h with he | he
        · simp at he
        rcases List.mem_append.mp he with hm | hm
        · exact absurd hm hnod
        · exact ⟨meta, reply, rfl, by simpa using hm⟩
      · rw [processMessage_draftOk hg hgen hdr] at h
        rcases List.mem_cons.mp h with he | he
        · simp at he
        rcases List.mem_append.mp he with hm | hm
        · exact absurd hm hnod
        · exact ⟨meta, reply, rfl, by simpa using hm⟩

theorem draft_mem_processMsgList {w : World} : ∀ (ids : List String) {d : EmailMsg},
    Call.draftCreate d ∈ (processMsgList w ids).1 →
    ∃ msgId meta reply, w.getResult msgId = .ok meta ∧
      d = create_message "me" (headerOf meta "From") (headerOf meta "Subject") reply
  | [], d, h => by simp [processMsgList] at h
  | msgId :: rest, d, h => by
    rcases hpm : processMessage w msgId with ⟨calls, res⟩
    have hfrom : Call.draftCreate d ∈ calls →
        ∃ meta reply, w.getResult msgId = .ok meta ∧
          d = create_message "me" (headerOf meta "From") (headerOf meta "Subject") reply := by
      intro hm
      have hmem := @draft_mem_processMessage w msgId d
      rw [hpm] at hmem
      exact hmem hm
    rcases res with e | u
    · rw [processMsgList_cons_error hpm] at h
      obtain ⟨meta, reply, hgm, hdm⟩ := hfrom h
      exact ⟨msgId, meta, reply, hgm, hdm⟩
    · rw [processMsgList_cons_ok hpm] at h
      rcases List.mem_append.mp h with hm | hm
      · obtain ⟨meta, reply, hgm, hdm⟩ := hfrom hm
        exact ⟨msgId, meta, reply, hgm, hdm⟩
      · exact draft_mem_processMsgList rest hm

theorem draft_mem_processLabel {w : World} {label : String} {d : EmailMsg}
    (h : Call.draftCreate d ∈ (processLabel w label).1) :
    ∃ msgId meta reply, w.getResult msgId = .ok meta ∧
      d = create_message "me" (headerOf meta "From") (headerOf meta "Subject") reply := by
  rcases hl : w.listResult label with e | ids
  · rw [processLabel_listError hl] at h
    simp at h
  · rw [processLabel_listOk hl] at h
    rcases List.mem_cons.mp h with he | he
    · simp at he
    · exact draft_mem_processMsgList ids he

theorem draft_mem_run {w : World} : ∀ (labels : List String) {d : EmailMsg},
    Call.draftCreate d ∈ (process_unread_messages w labels).1 →
    ∃ msgId meta reply, w.getResult msgId = .ok meta ∧
      d = create_message "me" (headerOf meta "From") (headerOf meta "Subject") reply
  | [], d, h => by simp [process_unread_messages] at h
  | label :: rest, d, h => by
    rcases hpl : processLabel w label with ⟨calls, res⟩
    have hfrom : Call.draftCreate d ∈ calls →
        ∃ msgId meta reply, w.getResult msgId = .ok meta ∧
          d = create_message "me" (headerOf meta "From") (headerOf meta "Subject") reply := by
      intro hm
      have hmem := @draft_mem_processLabel w label d
      rw [hpl] at hmem
      exact hmem hm
    rcases res with e | u
    · by_cases hh : isHttpError e = true
      · rw [run_cons_labelHttp hpl hh] at h
        rcases List.mem_append.mp h with hm | hm
        · exact hfrom hm
        · exact draft_mem_run rest hm
      · rw [run_cons_labelFatal hpl (by simpa using hh)] at h
        exact hfrom h
    · rw [run_cons_labelOk hpl] at h
      rcases List.mem_append.mp h with hm | hm
      · exact hfrom hm
      · exact draft_mem_run rest hm

theorem keyMissing_processMessage {w : World} (hk : keyMissing w.apiKey = true)
    (msgId : String) :
    (processMessage w msgId).1 = [Call.getCall msgId] ∧
      ∃ e, (processMessage w msgId).2 = .error e ∧
        (e = .runtimeError openaiMissingMsg ∨ isHttpError e = true) := by
  rcases hg : w.getResult msgId with e | meta
  · rw [processMessage_getError hg]
    exact ⟨rfl, .httpError e, rfl, Or.inr rfl⟩
  · rw [processMessage_genFail hg (by rw [generate_reply_keyMissing hk])]
    exact ⟨rfl, .runtimeError openaiMissingMsg, rfl, Or.inl rfl⟩

theorem keyMissing_processMsgList {w : World} (hk : keyMissing w.apiKey = true) :
    ∀ ids : List String,
    (∀ p, Call.genCall p ∉ (processMsgList w ids).1) ∧
      (∀ d, Call.draftCreate d ∉ (processMsgList w ids).1) ∧
      ((processMsgList w ids).2 = .ok () ∨
        ∃ e, (processMsgList w ids).2 = .error e ∧
          (e = .runtimeError openaiMissingMsg ∨ isHttpError e = true))
  | [] => by simp [processMsgList]
  | msgId :: rest => by
    obtain ⟨h1, e, he, hsh⟩ := keyMissing_processMessage hk msgId
    rcases hpm : processMessage w msgId with ⟨calls, res⟩
    rw [hpm] at h1 he
    simp only at h1 he
    subst h1
    cases he
    rw [processMsgList_cons_error hpm]
    exact ⟨by simp, by simp, Or.inr ⟨e, rfl, hsh⟩⟩

theorem keyMissing_processLabel {w : World} (hk : keyMissing w.apiKey = true)
    (label : String) :
    (∀ p, Call.genCall p ∉ (processLabel w label).1) ∧
      (∀ d, Call.draftCreate d ∉ (processLabel w label).1) ∧
      ((processLabel w label).2 = .ok () ∨
        ∃ e, (processLabel w label).2 = .error e ∧
          (e = .runtimeError openaiMissingMsg ∨ isHttpError e = true)) := by
  rcases hl : w.listResult label with e | ids
  · rw [processLabel_listError hl]
    exact ⟨by simp, by simp, Or.inr ⟨.httpError e, rfl, Or.inr rfl⟩⟩
  · obtain ⟨h1, h2, h3⟩ := keyMissing_processMsgList hk ids
    rw [processLabel_listOk hl]
    refine ⟨?_, ?_, h3⟩
    · intro p hm
      rcases List.mem_cons.mp hm with he | he
      · simp at he
      · exact h1 p he
    · intro d hm
      rcases List.mem_cons.mp hm with he | he
      · simp at he
      · exact h2 d he

theorem keyMissing_run {w : World} (hk : keyMissing w.apiKey = true) :
    ∀ labels : List String,
    (∀ p, Call.genCall p ∉ (process_unread_messages w labels).1) ∧
      (∀ d, Call.draftCreate d ∉ (process_unread_messages w labels).1) ∧
      ((process_unread_messages w labels).2 = .ok ∨
        (process_unread_messages w labels).2 =
          .uncaught (.runtimeError openaiMissingMsg))
  | [] => by simp [process_unread_messages]
  | label :: rest => by
    obtain ⟨h1, h2, h3⟩ := keyMissing_processLabel hk label
    obtain ⟨ih1, ih2, ih3⟩ := keyMissing_run hk rest
    rcases hpl : processLabel w label with ⟨calls, res⟩
    rw [hpl] at h1 h2 h3
    simp only at h1 h2 h3
    rcases res with e | u
    · rcases h3 with h3 | ⟨e2, he2, hsh⟩
      · simp at h3
      have hee : e = e2 := by simpa using he2
      subst hee
      rcases hsh with rfl | hhttp
      · rw [run_cons_labelFatal hpl (by simp [isHttpError])]
        exact ⟨h1, h2, Or.inr rfl⟩
      · rw [run_cons_labelHttp hpl hhttp]
        refine ⟨?_, ?_, ih3⟩
        · intro p hm
          rcases List.mem_append.mp hm with hmm | hmm
          · exact h1 p hmm
          · exact ih1 p hmm
        · intro d hm
          rcases List.mem_append.mp hm with hmm | hmm
          · exact h2 d hmm
          · exact ih2 d hmm
    · rw [run_cons_labelOk hpl]
      refine ⟨?_, ?_, ih3⟩
      · intro p hm
        rcases List.mem_append.mp hm with hmm | hmm
        · exact h1 p hmm
        · exact ih1 p hmm
      · intro d hm
        rcases List.mem_append.mp hm with hmm | hmm
        · exact h2 d hmm
        · exact ih2 d hmm

theorem string_data_ext {a b : String} (h : a.data = b.data) : a = b := by
  cases a
  cases b
  exact congrArg String.mk h

/-!
The claims.
-/

/-- Claim C3: for every successfully fetched message, the composed draft's
Subject header equals `"Re: "` concatenated with the original subject,
exactly and unconditionally — including the empty subject (giving
`"Re: "`) and a subject already starting with `"Re: "` (giving
`"Re: Re: ..."`, no deduplication). -/
theorem claim_C3_subject :
    (∀ f t s b, (create_message f t s b).subject = "Re: " ++ s) ∧
    (∀ f t b, (create_message f t "" b).subject = "Re: ") ∧
    (∀ f t s b, (create_message f t ("Re: " ++ s) b).subject = "Re: " ++ ("Re: " ++ s)) ∧
    (∀ (w : World) (labels : List String) (d : EmailMsg),
      Call.draftCreate d ∈ (process_unread_messages w labels).1 →
      ∃ msgId meta, w.getResult msgId = .ok meta ∧
        d.subject = "Re: " ++ headerOf meta "Subject") := by
  refine ⟨fun f t s b => rfl, fun f t b => by simp [create_message], fun f t s b => rfl,
    fun w labels d h => ?_⟩
  obtain ⟨msgId, meta, reply, hg, hd⟩ := draft_mem_run labels h
  exact ⟨msgId, meta, hg, by rw [hd]; rfl⟩

/-- Witness for claim C3 at a concrete world: the draft saved for the
sample message carries the subject of that message with `"Re: "`
prepended. -/
theorem claim_C3_witness :
    ∃ msgId meta, okWorld.getResult msgId = .ok meta ∧
      okDraft.subject = "Re: " ++ headerOf meta "Subject" :=
  claim_C3_subject.2.2.2 okWorld ["Leads_New"] okDraft (by decide)

/-- Claim C5: if the scan (list) call of label `l` raises an `HttpError`,
the only call made for `l` is that list call — no message of `l` is
fetched, generated for, or drafted — and the remaining labels are
processed exactly as they would be on their own. -/
theorem claim_C5_scanFailure (w : World) (l : String) (rest : List String) (e : String)
    (h : w.listResult l = .error e) :
    process_unread_messages w (l :: rest) =
      (Call.listCall l :: (process_unread_messages w rest).1,
       (process_unread_messages w rest).2) ∧
    (∀ d, Call.draftCreate d ∈ (process_unread_messages w (l :: rest)).1 →
      Call.draftCreate d ∈ (process_unread_messages w rest).1) := by
  have heq := @run_cons_listError w l rest e h
  refine ⟨heq, fun d hm => ?_⟩
  rw [heq] at hm
  rcases List.mem_cons.mp hm with he | he
  · simp at he
  · exact he

/-- Witness for claim C5: with the scan of `"Leads_New"` failing, the run
over two labels degenerates to the failed list call followed by the
second label's run. -/
theorem claim_C5_witness :
    process_unread_messages listFailWorld ["Leads_New", "Clients_OpenQuestions"] =
      (Call.listCall "Leads_New" ::
        (process_unread_messages listFailWorld ["Clients_OpenQuestions"]).1,
       (process_unread_messages listFailWorld ["Clients_OpenQuestions"]).2) ∧
    (∀ d, Call.draftCreate d ∈
        (process_unread_messages listFailWorld ["Leads_New", "Clients_OpenQuestions"]).1 →
      Call.draftCreate d ∈
        (process_unread_messages listFailWorld ["Clients_OpenQuestions"]).1) :=
  claim_C5_scanFailure listFailWorld "Leads_New" ["Clients_OpenQuestions"] "HTTP 500" rfl

/-- Claim C6: a label whose unread scan returns zero messages contributes
only its list call to the trace — no draft-creation call, no error — and
the remaining labels are processed exactly as they would be on their own. -/
theorem claim_C6_emptyLabel (w : World) (l : String) (rest : List String)
    (h : w.listResult l = .ok []) :
    process_unread_messages w (l :: rest) =
      (Call.listCall l :: (process_unread_messages w rest).1,
       (process_unread_messages w rest).2) ∧
    (∀ d, Call.draftCreate d ∈ (process_unread_messages w (l :: rest)).1 →
      Call.draftCreate d ∈ (process_unread_messages w rest).1) := by
  have heq := @run_cons_listEmpty w l rest h
  refine ⟨heq, fun d hm => ?_⟩
  rw [heq] at hm
  rcases List.mem_cons.mp hm with he | he
  · simp at he
  · exact he

/-- Witness for claim C6: with every label empty, the two-label run is the
first list call followed by the second label's run. -/
theorem claim_C6_witness :
    process_unread_messages emptyWorld ["Leads_New", "Clients_OpenQuestions"] =
      (Call.listCall "Leads_New" ::
        (process_unread_messages emptyWorld ["Clients_OpenQuestions"]).1,
       (process_unread_messages emptyWorld ["Clients_OpenQuestions"]).2) ∧
    (∀ d, Call.draftCreate d ∈
        (process_unread_messages emptyWorld ["Leads_New", "Clients_OpenQuestions"]).1 →
      Call.draftCreate d ∈
        (process_unread_messages emptyWorld ["Clients_OpenQuestions"]).1) :=
  claim_C6_emptyLabel emptyWorld "Leads_New" ["Clients_OpenQuestions"] rfl

/-- Claim C8: with the API key present, `generate_reply` makes exactly one
generation call, whose prompt embeds the sender, subject and snippet
verbatim, and on success returns the generated text trimmed of leading
and trailing whitespace. -/
theorem claim_C8_generation (w : World) (sender subject snippet : String)
    (hk : keyMissing w.apiKey = false) :
    (generate_reply w sender subject snippet).1 =
      [Call.genCall (mkPrompt sender subject snippet)] ∧
    containsSeg (mkPrompt sender subject snippet) sender ∧
    containsSeg (mkPrompt sender subject snippet) subject ∧
    containsSeg (mkPrompt sender subject snippet) snippet ∧
    (∀ t', w.genResult (mkPrompt sender subject snippet) = .ok t' →
      (generate_reply w sender subject snippet).2 = .ok (pyStrip t')) := by
  refine ⟨?_, ?_, ?_, ?_, fun t' hg => by rw [generate_reply_genOk hk _ _ _ hg]⟩
  · rcases hg : w.genResult (mkPrompt sender subject snippet) with e | t'
    · rw [generate_reply_genError hk _ _ _ hg]
    · rw [generate_reply_genOk hk _ _ _ hg]
  · refine ⟨"You are an assistant drafting polite, professional email replies for a photo booth rental company named PhoBoCo. Use the email below as context.\nFrom: ",
      "\nSubject: " ++ subject ++ "\nMessage snippet:\n" ++ snippet
        ++ "\n\nCraft a concise, friendly response addressing the sender\x27s points and acknowledging their inquiry. Sign off as \x27PhoBoCo Team\x27.",
      string_data_ext ?_⟩
    simp only [mkPrompt, String.data_append, List.append_assoc]
  · refine ⟨"You are an assistant drafting polite, professional email replies for a photo booth rental company named PhoBoCo. Use the email below as context.\nFrom: "
        ++ sender ++ "\nSubject: ",
      "\nMessage snippet:\n" ++ snippet
        ++ "\n\nCraft a concise, friendly response addressing the sender\x27s points and acknowledging their inquiry. Sign off as \x27PhoBoCo Team\x27.",
      string_data_ext ?_⟩
    simp only [mkPrompt, String.data_append, List.append_assoc]
  · refine ⟨"You are an assistant drafting polite, professional email replies for a photo booth rental company named PhoBoCo. Use the email below as context.\nFrom: "
        ++ sender ++ "\nSubject: " ++ subject ++ "\nMessage snippet:\n",
      "\n\nCraft a concise, friendly response addressing the sender\x27s points and acknowledging their inquiry. Sign off as \x27PhoBoCo Team\x27.",
      string_data_ext ?_⟩
    simp only [mkPrompt, String.data_append, List.append_assoc]

/-- Witness for claim C8 at concrete strings in `okWorld`. -/
theorem claim_C8_witness :
    (generate_reply okWorld "alice@example.com" "Booking question" "a snippet").1 =
      [Call.genCall (mkPrompt "alice@example.com" "Booking question" "a snippet")] ∧
    containsSeg (mkPrompt "alice@example.com" "Booking question" "a snippet")
      "alice@example.com" ∧
    containsSeg (mkPrompt "alice@example.com" "Booking question" "a snippet")
      "Booking question" ∧
    containsSeg (mkPrompt "alice@example.com" "Booking question" "a snippet")
      "a snippet" ∧
    (∀ t', okWorld.genResult
        (mkPrompt "alice@example.com" "Booking question" "a snippet") = .ok t' →
      (generate_reply okWorld "alice@example.com" "Booking question" "a snippet").2 =
        .ok (pyStrip t')) :=
  claim_C8_generation okWorld "alice@example.com" "Booking question" "a snippet" (by decide)

/-- Claim C10: every draft the pipeline saves was composed with the
literal string `"me"` (the Gmail user-id placeholder) as its From value,
and its serialized MIME form therefore carries the header line
`From: me`. -/
theorem claim_C10_fromMe (w : World) (labels : List String) (d : EmailMsg)
    (h : Call.draftCreate d ∈ (process_unread_messages w labels).1) :
    d.fromAddr = "me" ∧ containsSeg (serializeMime d) "From: me\n" := by
  obtain ⟨msgId, meta, reply, hg, hd⟩ := draft_mem_run labels h
  subst hd
  refine ⟨rfl, "To: " ++ headerOf meta "From" ++ "\n",
    "Subject: " ++ ("Re: " ++ headerOf meta "Subject") ++ "\n" ++ fixedMimeTail
      ++ pyBody reply, string_data_ext ?_⟩
  simp [serializeMime, create_message, String.data_append, List.append_assoc]

/-- Witness for claim C10: the draft saved in `okWorld` has `"me"` as its
From value. -/
theorem claim_C10_witness :
    okDraft.fromAddr = "me" ∧ containsSeg (serializeMime okDraft) "From: me\n" :=
  claim_C10_fromMe okWorld ["Leads_New"] okDraft (by decide)

/-- Counterexample to claim C1 as stated: with the key absent, the run
does NOT terminate before mail-service calls are made — the list call
for the first label (and the get call for its first message) happen
before the missing key is detected inside `generate_reply`. -/
theorem claim_C1_counterexample :
    keyMissing noKeyWorld.apiKey = true ∧
    Call.listCall "Leads_New" ∈
      (process_unread_messages noKeyWorld ["Leads_New"]).1 ∧
    Call.getCall "m1" ∈ (process_unread_messages noKeyWorld ["Leads_New"]).1 := by
  refine ⟨rfl, ?_, ?_⟩ <;> decide

/-- Claim C1 (amended): if the generation-service key is absent, no
generation request and no draft-creation call is ever made; the run
either completes normally (when no label yields a successfully fetched
message) or terminates with the uncaught missing-key `RuntimeError` at
the first reply generation — but the mail-service list and get calls
leading up to that point do occur. -/
theorem claim_C1_amended (w : World) (labels : List String)
    (hk : keyMissing w.apiKey = true) :
    (∀ p, Call.genCall p ∉ (process_unread_messages w labels).1) ∧
      (∀ d, Call.draftCreate d ∉ (process_unread_messages w labels).1) ∧
      ((process_unread_messages w labels).2 = .ok ∨
        (process_unread_messages w labels).2 =
          .uncaught (.runtimeError openaiMissingMsg)) :=
  keyMissing_run hk labels

/-- Witness for claim C1 (amended) at the key-less world. -/
theorem claim_C1_witness :
    (∀ p, Call.genCall p ∉ (process_unread_messages noKeyWorld ["Leads_New"]).1) ∧
      (∀ d, Call.draftCreate d ∉ (process_unread_messages noKeyWorld ["Leads_New"]).1) ∧
      ((process_unread_messages noKeyWorld ["Leads_New"]).2 = .ok ∨
        (process_unread_messages noKeyWorld ["Leads_New"]).2 =
          .uncaught (.runtimeError openaiMissingMsg)) :=
  claim_C1_amended noKeyWorld ["Leads_New"] rfl

/-- Counterexample to claim C2 as stated: a generation failure is NOT
isolated to the failing message's label — the exception is not an
`HttpError`, so the per-label handler does not catch it and the second
configured label is never scanned. -/
theorem claim_C2_counterexample :
    genFailWorld.genResult (mkPrompt "alice@example.com" "Booking question"
      "Hi, is the booth free on Saturday?") = .error "rate limited" ∧
    Call.listCall "Clients_OpenQuestions" ∉
      (process_unread_messages genFailWorld
        ["Leads_New", "Clients_OpenQuestions"]).1 ∧
    (process_unread_messages genFailWorld ["Leads_New", "Clients_OpenQuestions"]).2 =
      .uncaught (.openaiError "rate limited") := by
  refine ⟨rfl, ?_, ?_⟩ <;> decide

/-- Claim C2 (amended): if the generation call for the first message of
label `l` fails, no draft is created for that message — but the failure
is not absorbed at the label boundary: the exception (not an
`HttpError`) propagates out of the orchestrator, so neither the
remaining messages of `l` nor any later configured label is processed. -/
theorem claim_C2_amended (w : World) (l : String) (rest : List String)
    (msgId : String) (ids : List String) (meta : MsgMeta) (e : String)
    (hk : keyMissing w.apiKey = false)
    (hl : w.listResult l = .ok (msgId :: ids))
    (hget : w.getResult msgId = .ok meta)
    (hg : w.genResult (mkPrompt (headerOf meta "From") (headerOf meta "Subject")
      (meta.snippet.getD "")) = .error e) :
    process_unread_messages w (l :: rest) =
      ([Call.listCall l, Call.getCall msgId,
        Call.genCall (mkPrompt (headerOf meta "From") (headerOf meta "Subject")
          (meta.snippet.getD ""))],
       .uncaught (.openaiError e)) ∧
    (∀ d, Call.draftCreate d ∉ (process_unread_messages w (l :: rest)).1) ∧
    (∀ l2, Call.listCall l2 ∈ (process_unread_messages w (l :: rest)).1 → l2 = l) := by
  have heq := @run_cons_genError w l rest msgId ids meta e hk hl hget hg
  refine ⟨heq, fun d => ?_, fun l2 hm => ?_⟩
  · rw [heq]
    simp
  · rw [heq] at hm
    simpa using hm

/-- Witness for claim C2 (amended) at the generation-failure world. -/
theorem claim_C2_witness :
    process_unread_messages genFailWorld ["Leads_New", "Clients_OpenQuestions"] =
      ([Call.listCall "Leads_New", Call.getCall "m1",
        Call.genCall (mkPrompt (headerOf sampleMeta "From")
          (headerOf sampleMeta "Subject") (sampleMeta.snippet.getD ""))],
       .uncaught (.openaiError "rate limited")) ∧
    (∀ d, Call.draftCreate d ∉ (process_unread_messages genFailWorld
      ["Leads_New", "Clients_OpenQuestions"]).1) ∧
    (∀ l2, Call.listCall l2 ∈ (process_unread_messages genFailWorld
      ["Leads_New", "Clients_OpenQuestions"]).1 → l2 = "Leads_New") :=
  claim_C2_amended genFailWorld "Leads_New" ["Clients_OpenQuestions"] "m1" []
    sampleMeta "rate limited" rfl rfl rfl rfl

/-- Claim C7: the missing-key `RuntimeError` (the configuration error) is
never caught by the per-label `except HttpError` handler: once a message
of label `l` is fetched with the key absent, the run terminates with the
error uncaught, and no later label is scanned. -/
theorem claim_C7_configFatal (w : World) (l : String) (rest : List String)
    (msgId : String) (ids : List String) (meta : MsgMeta)
    (hk : keyMissing w.apiKey = true)
    (hl : w.listResult l = .ok (msgId :: ids))
    (hget : w.getResult msgId = .ok meta) :
    process_unread_messages w (l :: rest) =
      ([Call.listCall l, Call.getCall msgId],
       .uncaught (.runtimeError openaiMissingMsg)) ∧
    (∀ l2, Call.listCall l2 ∈ (process_unread_messages w (l :: rest)).1 → l2 = l) := by
  have heq := @run_cons_keyMissing w l rest msgId ids meta hk hl hget
  refine ⟨heq, fun l2 hm => ?_⟩
  rw [heq] at hm
  simpa using hm

/-- Witness for claim C7 at the key-less world over two labels. -/
theorem claim_C7_witness :
    process_unread_messages noKeyWorld ["Leads_New", "Clients_OpenQuestions"] =
      ([Call.listCall "Leads_New", Call.getCall "m1"],
       .uncaught (.runtimeError openaiMissingMsg)) ∧
    (∀ l2, Call.listCall l2 ∈ (process_unread_messages noKeyWorld
      ["Leads_New", "Clients_OpenQuestions"]).1 → l2 = "Leads_New") :=
  claim_C7_configFatal noKeyWorld "Leads_New" ["Clients_OpenQuestions"] "m1" []
    sampleMeta rfl rfl rfl

/-- Claim C9: when the fetched metadata has no Subject and no From
header, both default to the empty string (never an absent value), and
the pipeline still proceeds for that message: the reply is generated
from empty sender and subject and the draft is saved, after which the
remaining labels are processed normally. -/
theorem claim_C9_missingHeaders (w : World) (l : String) (rest : List String)
    (msgId : String) (meta : MsgMeta) (t' : String)
    (hk : keyMissing w.apiKey = false)
    (hl : w.listResult l = .ok [msgId])
    (hget : w.getResult msgId = .ok meta)
    (hsub : dictGet meta.headers "Subject" = none)
    (hfrom : dictGet meta.headers "From" = none)
    (hg : w.genResult (mkPrompt "" "" (meta.snippet.getD "")) = .ok t')
    (hd : w.draftResult (create_message "me" "" "" (pyStrip t')) = .ok ()) :
    headerOf meta "Subject" = "" ∧ headerOf meta "From" = "" ∧
    process_unread_messages w (l :: rest) =
      ([Call.listCall l, Call.getCall msgId,
        Call.genCall (mkPrompt "" "" (meta.snippet.getD "")),
        Call.draftCreate (create_message "me" "" "" (pyStrip t'))] ++
          (process_unread_messages w rest).1,
       (process_unread_messages w rest).2) := by
  have hS : headerOf meta "Subject" = "" := by simp [headerOf, hsub]
  have hF : headerOf meta "From" = "" := by simp [headerOf, hfrom]
  refine ⟨hS, hF, ?_⟩
  have hgen : generate_reply w (headerOf meta "From") (headerOf meta "Subject")
      (meta.snippet.getD "") =
      ([Call.genCall (mkPrompt "" "" (meta.snippet.getD ""))], .ok (pyStrip t')) := by
    rw [hF, hS]
    exact generate_reply_genOk hk _ _ _ hg
  have hpm := processMessage_draftOk hget hgen (by rw [hF, hS]; exact hd)
  rw [hF, hS] at hpm
  have hml : processMsgList w [msgId] =
      ([Call.getCall msgId, Call.genCall (mkPrompt "" "" (meta.snippet.getD "")),
        Call.draftCreate (create_message "me" "" "" (pyStrip t'))], .ok ()) := by
    rw [processMsgList_cons_ok hpm]
    simp [processMsgList]
  have hpl : processLabel w l =
      ([Call.listCall l, Call.getCall msgId,
        Call.genCall (mkPrompt "" "" (meta.snippet.getD "")),
        Call.draftCreate (create_message "me" "" "" (pyStrip t'))], .ok ()) := by
    rw [processLabel_listOk hl, hml]
  rw [run_cons_labelOk hpl]

/-- Witness for claim C9 at the world whose message has no headers. -/
theorem claim_C9_witness :
    headerOf { headers := [], snippet := some "a snippet" } "Subject" = "" ∧
    headerOf { headers := [], snippet := some "a snippet" } "From" = "" ∧
    process_unread_messages noHdrWorld ["Leads_New", "Clients_OpenQuestions"] =
      ([Call.listCall "Leads_New", Call.getCall "m1",
        Call.genCall (mkPrompt "" ""
          (({ headers := [], snippet := some "a snippet" } : MsgMeta).snippet.getD "")),
        Call.draftCreate (create_message "me" "" "" (pyStrip "  A reply.  "))] ++
          (process_unread_messages noHdrWorld ["Clients_OpenQuestions"]).1,
       (process_unread_messages noHdrWorld ["Clients_OpenQuestions"]).2) :=
  claim_C9_missingHeaders noHdrWorld "Leads_New" ["Clients_OpenQuestions"] "m1"
    { headers := [], snippet := some "a snippet" } "  A reply.  "
    rfl rfl rfl rfl rfl rfl rfl

end PhoBoCo
